import Mathlib

/-!
Verification of the simulation core of `bevy-dino` (`src/game.rs`,
`src/camera.rs`): a shallow embedding of the character physics controller
(`dino_gravity`, `arrow_move`), the camera controller
(`camera_tracking_system`) and the procedural world generator
(`spawn_platforms`), with all physics scalars modelled as exact rationals.
The two irrational constants the code computes with `f32::sqrt`
(the jump thrust `(2 * jump_height * |gravity|).sqrt() * 0.22` and the
camera damping `2 * (m * k).sqrt()`) are passed in as parameters, since no
verified property depends on their numeric value.  Randomness is modelled
as an explicit stream of draw values.
-/

/-- Axis-aligned bounding box given by min/max corners (bevy `Aabb2d`). -/
structure Aabb where
  minX : ℚ
  minY : ℚ
  maxX : ℚ
  maxY : ℚ
deriving DecidableEq, Repr

/-- `Aabb2d::new(center, half_size)`: corners from a center and half extent. -/
def Aabb.around (cx cy hx hy : ℚ) : Aabb :=
  ⟨cx - hx, cy - hy, cx + hx, cy + hy⟩

/-- `aabb.min.y += dy; aabb.max.y += dy` (vertical integration of the box). -/
def Aabb.shiftY (a : Aabb) (dy : ℚ) : Aabb :=
  { a with minY := a.minY + dy, maxY := a.maxY + dy }

/-- `aabb.min.x += dx; aabb.max.x += dx` (horizontal integration of the box). -/
def Aabb.shiftX (a : Aabb) (dx : ℚ) : Aabb :=
  { a with minX := a.minX + dx, maxX := a.maxX + dx }

/-- bevy `Aabb2d::intersects`: closed-interval overlap on both axes. -/
def Aabb.intersects (a b : Aabb) : Bool :=
  decide (a.minX ≤ b.maxX) && decide (a.maxX ≥ b.minX) &&
    decide (a.minY ≤ b.maxY) && decide (a.maxY ≥ b.minY)

/-- The `Obstacle` component: a world-space box.  Platform obstacles and tree
obstacles are distinguished by which per-tile cache list holds them. -/
structure Obstacle where
  aabb : Aabb
deriving DecidableEq, Repr

/-- The mutable state of the `Dino` component together with the `Transform`
translation of the same entity (fields `x`, `y`) and the sprite's texture
atlas frame index (`atlas`).  `holdCount` is the running counter of the single
`frame_hold_counter` entry `(21, count, 1)` from `Dino::default`. -/
structure DinoState where
  x : ℚ
  y : ℚ
  velX : ℚ
  velY : ℚ
  grounded : Bool
  jumping : Bool
  jump_time : ℚ
  jump_height : ℚ
  attacking : Bool
  can_attack : Bool
  idle_frame_forward : Bool
  holdCount : ℕ
  atlas : ℕ
  health : ℤ
  aabb : Aabb
deriving DecidableEq, Repr

/-- `Dino::default()` plus the zero `Transform`. -/
def DinoState.start : DinoState where
  x := 0
  y := 0
  velX := 0
  velY := 0
  grounded := false
  jumping := false
  jump_time := 0
  jump_height := 1500
  attacking := false
  can_attack := false
  idle_frame_forward := true
  holdCount := 0
  atlas := 0
  health := 100
  aabb := Aabb.around 0 0 32 32

/-- `let gravity = -1200.0` in `dino_gravity`. -/
def gravity : ℚ := -1200

/-- The per-platform landing decision of the `dino_gravity` loop: the platform
must overlap the character horizontally (`dino_right < obstacle_left ||
dino_left > obstacle_right` skips), the character must not be moving up
(`velocity.y <= 0.0`), and the two skip tests must both fail
(`aabb.min.y >= platform.aabb.max.y + 15.0` and
`aabb.min.y < platform.aabb.max.y`). -/
def landingCond (d : DinoState) (p : Obstacle) : Bool :=
  !(decide (d.aabb.maxX < p.aabb.minX) || decide (d.aabb.minX > p.aabb.maxX)) &&
    decide (d.velY ≤ 0) &&
    !(decide (d.aabb.minY ≥ p.aabb.maxY + 15)) &&
    !(decide (d.aabb.minY < p.aabb.maxY))

/-- The landing snap of `dino_gravity`: snap the box bottom to the platform
top keeping the box height, recentre `translation.y`, apply fall damage
`100 / 5 * ((velocity.y / 500.).abs().floor() - 2)` when the pre-snap
`velocity.y < -1500.0` (the `100 / 5` is Rust `i32` division, exactly `20`),
then zero the vertical velocity and set `grounded`. -/
def landOn (d : DinoState) (p : Obstacle) : DinoState :=
  let dinoHeight := d.aabb.maxY - d.aabb.minY
  let d1 := { d with
    y := p.aabb.maxY + dinoHeight / 2,
    aabb := { d.aabb with minY := p.aabb.maxY, maxY := p.aabb.maxY + dinoHeight } }
  let d2 :=
    if d1.velY < -1500 then
      { d1 with health := d1.health - 100 / 5 * (⌊|d1.velY / 500|⌋ - 2) }
    else d1
  { d2 with velY := 0, grounded := true }

/-- The `for platform in platforms.iter()` loop of `dino_gravity`, threading
the `landed` flag. -/
def landLoop : List Obstacle → DinoState → Bool → DinoState × Bool
  | [], d, landed => (d, landed)
  | p :: ps, d, landed =>
    if landingCond d p then landLoop ps (landOn d p) true
    else landLoop ps d landed

/-- `dino.velocity.y += gravity * dt` while not grounded. -/
def gravityPhase (dt : ℚ) (d : DinoState) : DinoState :=
  if d.grounded then d else { d with velY := d.velY + gravity * dt }

/-- `translation.y += dy; aabb.min.y += dy; aabb.max.y += dy` with
`dy = velocity.y * dt`. -/
def integrateY (dt : ℚ) (d : DinoState) : DinoState :=
  let dy := d.velY * dt
  { d with y := d.y + dy, aabb := d.aabb.shiftY dy }

/-- One tick of the `dino_gravity` system: gravity while airborne, vertical
integration of translation and box, the landing loop, and `grounded = false`
when no platform produced a landing. -/
def dinoGravityStep (dt : ℚ) (platforms : List Obstacle) (d : DinoState) : DinoState :=
  let r := landLoop platforms (integrateY dt (gravityPhase dt d)) false
  if r.2 then r.1 else { r.1 with grounded := false }

/-- The spec's (amended) landing predicate, stated in the spec's own words:
horizontal overlap, not moving upward, bottom at or above the platform top and
strictly less than 15 units above it. -/
def landingSpec (d : DinoState) (p : Obstacle) : Prop :=
  (p.aabb.minX ≤ d.aabb.maxX ∧ d.aabb.minX ≤ p.aabb.maxX) ∧
    d.velY ≤ 0 ∧ p.aabb.maxY ≤ d.aabb.minY ∧ d.aabb.minY < p.aabb.maxY + 15

/-- AABB-position coherence: the character box's center equals the character's
translation on both axes. -/
def coherent (d : DinoState) : Prop :=
  (d.aabb.minX + d.aabb.maxX) / 2 = d.x ∧ (d.aabb.minY + d.aabb.maxY) / 2 = d.y

instance (d : DinoState) : Decidable (coherent d) := by
  unfold coherent; infer_instance

instance (d : DinoState) (p : Obstacle) : Decidable (landingSpec d p) := by
  unfold landingSpec; infer_instance

/-- The per-tick input of `arrow_move`: the frame delta, the polled keyboard
state, whether the repeating 0.07s frame timer fired this tick, and the two
random draws the idle animation may consume (`random_range(0..40)` and
`random_range(0..10)`; the other draws of `arrow_move` only select sound
effects and never touch the simulation state). -/
structure MoveInput where
  dt : ℚ
  spaceJustPressed : Bool
  spacePressed : Bool
  rightPressed : Bool
  leftPressed : Bool
  timerFinished : Bool
  rollIdle40 : ℕ
  rollIdle10 : ℕ
deriving DecidableEq, Repr

/-- Jump start in `arrow_move`: on a Space edge while grounded, reset the jump
session sub-state, go airborne, cancel any attack and clear `can_attack`. -/
def jumpStartPhase (inp : MoveInput) (d : DinoState) : DinoState :=
  if inp.spaceJustPressed && d.grounded then
    { d with jumping := true, jump_time := 0, grounded := false,
             attacking := false, can_attack := false, jump_height := 1500 }
  else d

/-- Jump thrust in `arrow_move`: while `jumping`, Space held and
`jump_time < 0.22`, set `velocity.y` to the constant thrust
`(2.0 * jump_height * gravity.abs()).sqrt() * 0.22` and accumulate
`jump_time`; otherwise clear `jumping`.  `sqrtQ` stands for `f32::sqrt`,
whose exact value is irrational and never load-bearing here. -/
def jumpThrustPhase (sqrtQ : ℚ → ℚ) (inp : MoveInput) (d : DinoState) : DinoState :=
  let jump_acceleration := sqrtQ (2 * d.jump_height * |gravity|) * (22 / 100)
  if d.jumping && inp.spacePressed && decide (d.jump_time < 22 / 100) then
    { d with velY := jump_acceleration, jump_time := d.jump_time + inp.dt }
  else { d with jumping := false }

/-- Horizontal movement in `arrow_move`: target velocity `±RUNNING_SPEED`
(250) from the held direction keys, the per-tick damper
`velocity.x * 0.95 + target * (1 - 0.95)`, and integration of translation and
box. -/
def horizPhase (inp : MoveInput) (d : DinoState) : DinoState :=
  let target : ℚ := if inp.rightPressed then 250 else if inp.leftPressed then -250 else 0
  let v := d.velX * (95 / 100) + target * (1 - 95 / 100)
  let dx := v * inp.dt
  { d with velX := v, x := d.x + dx, aabb := d.aabb.shiftX dx }

/-- One frame-timer advance of the attack animation (the `else if
dino.attacking` arm): frame 24 ends the attack at frame 23; the single
`frame_hold_counter` entry holds frame 21 for one extra tick; every other
frame advances by one. -/
def attackAnimAdvance (d : DinoState) : DinoState :=
  if d.atlas = 24 then { d with atlas := 23, attacking := false }
  else if d.atlas = 21 then
    if d.holdCount < 1 then { d with holdCount := d.holdCount + 1 }
    else { d with holdCount := 0, atlas := d.atlas + 1 }
  else { d with atlas := d.atlas + 1 }

/-- The airborne arm of `arrow_move` (`dino.jumping || !dino.grounded`),
returning the new state and whether an attack was registered this tick.
An attack needs a Space edge, `!attacking` and `can_attack`; on a connected
hit (`x_collision`) it also restarts the jump-thrust phase.  Every airborne
tick ends with `can_attack = true`. -/
def airborneBranch (xCol : Bool) (inp : MoveInput) (d : DinoState) : DinoState × Bool :=
  if inp.spaceJustPressed && !d.attacking && d.can_attack then
    let d1 := { d with attacking := true }
    let d2 := if xCol then { d1 with jump_time := 0, jumping := true } else d1
    ({ d2 with atlas := 18, can_attack := true }, true)
  else if d.attacking then
    let d1 := if inp.timerFinished then attackAnimAdvance d else d
    ({ d1 with can_attack := true }, false)
  else if decide (d.velY > -200) then ({ d with atlas := 25, can_attack := true }, false)
  else ({ d with atlas := 23, can_attack := true }, false)

/-- The walking arm of `arrow_move`: on a frame-timer tick cycle the clamped
frame index 0..11, wrapping 11 back to 0. -/
def walkingBranch (inp : MoveInput) (d : DinoState) : DinoState :=
  if inp.timerFinished then
    let index := min d.atlas 11
    if index = 11 then { d with atlas := 0 } else { d with atlas := index + 1 }
  else d

/-- The idle arm of `arrow_move`: frames 12..17 with the random twitch-back
behaviour at frames 16/17 driven by the `idle_frame_forward` flag. -/
def idleBranch (inp : MoveInput) (d : DinoState) : DinoState :=
  if inp.timerFinished then
    let d1 := if d.atlas < 12 || d.atlas > 17 then { d with atlas := 12 } else d
    let index := min (max d1.atlas 12) 17
    if index = 17 then
      let d2 := { d1 with idle_frame_forward := false }
      if inp.rollIdle40 = 0 then { d2 with atlas := 16 } else d2
    else if index = 16 then
      if d1.idle_frame_forward then { d1 with atlas := 17 }
      else { d1 with idle_frame_forward := true, atlas := 12 }
    else if inp.rollIdle10 = 0 then { d1 with atlas := index + 1 } else d1
  else d

/-- One tick of the `arrow_move` system: jump start, jump thrust, horizontal
integration, the `x_collision` scan over all obstacles, then the
airborne / walking / idle arms.  The returned flag reports whether the attack
branch was entered (an attack was registered) this tick. -/
def arrowMoveStep (sqrtQ : ℚ → ℚ) (obstacles : List Obstacle) (inp : MoveInput)
    (d : DinoState) : DinoState × Bool :=
  let d1 := jumpStartPhase inp d
  let d2 := jumpThrustPhase sqrtQ inp d1
  let d3 := horizPhase inp d2
  let xCol := obstacles.any (fun o => d3.aabb.intersects o.aabb)
  if d3.jumping || !d3.grounded then airborneBranch xCol inp d3
  else if inp.rightPressed || inp.leftPressed then (walkingBranch inp d3, false)
  else (idleBranch inp d3, false)

/-- One full simulation tick of the two character systems in their scheduled
order, `dino_gravity` then `arrow_move`, against one obstacle layout
(`platforms` feeds the landing loop, `obstacles` feeds the `x_collision`
scan). -/
def fullTick (sqrtQ : ℚ → ℚ) (obstacles platforms : List Obstacle) (inp : MoveInput)
    (d : DinoState) : DinoState × Bool :=
  arrowMoveStep sqrtQ obstacles inp (dinoGravityStep inp.dt platforms d)

/-- `GameLevelDimensions` of the game camera. -/
structure LevelDims where
  left : ℚ
  right : ℚ
  top : ℚ
  bottom : ℚ
deriving DecidableEq, Repr

/-- The level bounds spawned in `game_camera`: ±1,000,000 units per axis. -/
def theLevel : LevelDims := ⟨-1000000, 1000000, 1000000, -1000000⟩

/-- `camera_above_center_const` of `camera_tracking_system`. -/
def camera_above_center_const : ℚ := 75

/-- One per-axis update of `camera_tracking_system` (the NaN-free case; ℚ has
no NaN so the `is_nan` init never fires): dead-zone snap when
`|camera - target| < 0.10` and the target is strictly inside the bounds,
otherwise one step of the spring-damper with `k = 8.5` committed only when the
result is strictly inside the bounds.  `b` stands for the damping constant
`2.0 * (m * k).sqrt()`, irrational and irrelevant to the dead-zone case. -/
def cameraAxisTrack (b dt cam target lo hi : ℚ) : ℚ :=
  let delta := cam - target
  if |delta| < 1 / 10 then
    if target < hi ∧ lo < target then target else cam
  else
    let v := delta / dt
    let a := -b * v - (17 / 2) * delta
    let v2 := v + a * dt
    let dmove := v2 * dt
    let finalPos := target + dmove
    if finalPos < hi ∧ lo < finalPos then finalPos else cam

/-- The Y-axis camera update: the target is the player's Y plus the fixed
75-unit offset, bounded by the level's bottom/top. -/
def cameraTickY (b dt camY py lo hi : ℚ) : ℚ :=
  cameraAxisTrack b dt camY (py + camera_above_center_const) lo hi

/-- The X-axis camera update: the target is the player's X (no offset),
bounded by the level's left/right. -/
def cameraTickX (b dt camX px lo hi : ℚ) : ℚ :=
  cameraAxisTrack b dt camX px lo hi

/-- The wraparound tail of `camera_tracking_system`: when the player's
translation passes 90% of a level bound, teleport the translation to the
opposite 90% bound and shift the camera by twice that bound, one axis at a
time in source order.  Only the `Transform` is touched: the `Dino` component
(and hence its AABB) is not part of this system's queries. -/
def wrapStep (lv : LevelDims) (px py camX camY : ℚ) : ℚ × ℚ × ℚ × ℚ :=
  let maxX := lv.right * (9 / 10)
  let minX := lv.left * (9 / 10)
  let maxY := lv.top * (9 / 10)
  let minY := lv.bottom * (9 / 10)
  let a := if px > maxX then (minX, camX + 2 * minX) else (px, camX)
  let b := if py > maxY then (minY, camY + 2 * minY) else (py, camY)
  let c := if a.1 < minX then (maxX, a.2 + 2 * maxX) else a
  let e := if b.1 < minY then (maxY, b.2 + 2 * maxY) else b
  (c.1, e.1, c.2, e.2)

/-- The wraparound applied to the character: it rewrites the translation
while the `Dino` AABB stays as it was. -/
def applyWrapToDino (lv : LevelDims) (d : DinoState) (camX camY : ℚ) :
    DinoState × ℚ × ℚ :=
  let r := wrapStep lv d.x d.y camX camY
  ({ d with x := r.1, y := r.2.1 }, r.2.2.1, r.2.2.2)

/-- The `GameStatus` resource. -/
inductive GameStatus where
  | InProgress
  | Lose
  | Win
deriving DecidableEq, Repr

/-- The status write of `update_timeboard`: when the countdown timer has
finished, assign `Lose` (unconditionally, with no InProgress guard). -/
def update_timeboard_status (timerFinished : Bool) (s : GameStatus) : GameStatus :=
  if timerFinished then GameStatus.Lose else s

/-- The status write of `update_healthboard`: when `dino.health <= 0`, assign
`Lose` (unconditionally, with no InProgress guard). -/
def update_healthboard_status (health : ℤ) (s : GameStatus) : GameStatus :=
  if health ≤ 0 then GameStatus.Lose else s

/-- The status write of `update_heightboard`: when
`target_height - translation.y <= 0.0`, assign `Win` (unconditionally, with
no InProgress guard). -/
def update_heightboard_status (target dinoY : ℚ) (s : GameStatus) : GameStatus :=
  if target - dinoY ≤ 0 then GameStatus.Win else s

/-- The three status writes of one tick composed in the order the systems are
listed in the `Update` tuple (`update_timeboard`, …, `update_healthboard`,
`update_heightboard`). -/
def statusTick (timerFinished : Bool) (health : ℤ) (target dinoY : ℚ)
    (s : GameStatus) : GameStatus :=
  update_heightboard_status target dinoY
    (update_healthboard_status health (update_timeboard_status timerFinished s))

/-- `RESOLUTION_WIDTH` (the tile width). -/
def RESOLUTION_WIDTH : ℚ := 600

/-- `RESOLUTION_HEIGHT` (the tile height). -/
def RESOLUTION_HEIGHT : ℚ := 480

/-- The process-wide random source, modelled as the stream of its upcoming
draw values (an exhausted stream keeps yielding the lowest value). -/
abbrev RngStream : Type := List ℚ

/-- `rng.random_range(0..n)`: consume one draw, landing in `0..n-1`. -/
def drawNat (n : ℕ) : RngStream → ℕ × RngStream
  | [] => (0, [])
  | h :: t => (⌊h⌋.toNat % n, t)

/-- `rng.random_range(lo..hi)` on floats: consume one draw, landing in
`[lo, hi)` (an out-of-range stream value is mapped to `lo`). -/
def drawRange (lo hi : ℚ) : RngStream → ℚ × RngStream
  | [] => (lo, [])
  | h :: t => (if lo ≤ h ∧ h < hi then h else lo, t)

/-- Build an obstacle from the sampled center `(cx, cy)` and half extent
`(hx, hy)`, as `Obstacle { aabb: Aabb2d::new(..) }`. -/
def placeObstacle (cx cy hx hy : ℚ) : Obstacle :=
  ⟨Aabb.around cx cy hx hy⟩

/-- The extension `for` loop of `spawn_platforms` over one family's existing
obstacles: for each, roll `0..50` and skip on 0, otherwise place one new
obstacle whose center is the existing obstacle's minimum corner plus a
sampled offset, and stop at the first success. -/
def extendFirst (hx hy dxlo dxhi dylo dyhi : ℚ) :
    List Obstacle → RngStream → Option Obstacle × RngStream
  | [], rng => (none, rng)
  | p :: ps, rng =>
    let r1 := drawNat 50 rng
    if r1.1 = 0 then extendFirst hx hy dxlo dxhi dylo dyhi ps r1.2
    else
      let r2 := drawRange dxlo dxhi r1.2
      let r3 := drawRange dylo dyhi r2.2
      (some (placeObstacle (p.aabb.minX + r2.1) (p.aabb.minY + r3.1) hx hy), r3.2)

/-- The non-breaking tail of one placement-loop iteration: the initial
placement when the tile is still empty (platform or tree on a coin flip, with
the pickup roll), the both-empty `continue` guard (dead, since an empty tile
always places), then one extension attempt in a coin-chosen family. -/
def genCont (i j : ℤ) (plat tree : List Obstacle) (rng : RngStream) :
    List Obstacle × List Obstacle × RngStream :=
  let placed :=
    if plat.length + tree.length = 0 then
      let rc := drawNat 2 rng
      if rc.1 = 0 then
        let rx := drawRange 100 (RESOLUTION_WIDTH - 100) rc.2
        let ry := drawRange (-RESOLUTION_HEIGHT / 2 + 20) (RESOLUTION_HEIGHT / 2 - 20) rx.2
        let ob := placeObstacle ((i : ℚ) * RESOLUTION_WIDTH + rx.1)
          ((j : ℚ) * RESOLUTION_HEIGHT + ry.1) 50 10
        let rclock := drawNat 16 ry.2
        (plat ++ [ob], tree, rclock.2)
      else
        let rx := drawRange 50 (RESOLUTION_WIDTH - 50) rc.2
        let ry := drawRange (-RESOLUTION_HEIGHT / 2 + 190) (RESOLUTION_HEIGHT / 2 - 190) rx.2
        let ob := placeObstacle ((i : ℚ) * RESOLUTION_WIDTH + rx.1)
          ((j : ℚ) * RESOLUTION_HEIGHT + ry.1) 25 190
        let rapple := drawNat 2 ry.2
        (plat, tree ++ [ob], rapple.2)
    else (plat, tree, rng)
  match placed with
  | (plat2, tree2, rng2) =>
    if plat2 = [] ∧ tree2 = [] then (plat2, tree2, rng2)
    else
      let rf := drawNat 2 rng2
      if rf.1 = 0 then
        match extendFirst 50 10 (-150) 150 (-400) 400 plat2 rf.2 with
        | (some ob, r) => (plat2 ++ [ob], tree2, r)
        | (none, r) => (plat2, tree2, r)
      else
        match extendFirst 25 190 (-300) 300 (-400) 150 tree2 rf.2 with
        | (some ob, r) => (plat2, tree2 ++ [ob], r)
        | (none, r) => (plat2, tree2, r)

/-- One iteration of the per-tile placement `loop` of `spawn_platforms` for
tile `(i, j)`: `Sum.inl` is a `break` committing the accumulated lists,
`Sum.inr` is the next iteration's state.  Mirrors the source order: soft cap
(at ≥ 4 obstacles, break on a coin flip), hard cap at ≥ 8 (checked after the
soft-cap draw), then the non-breaking tail `genCont`. -/
def genIter (i j : ℤ) (plat tree : List Obstacle) (rng : RngStream) :
    (List Obstacle × List Obstacle × RngStream) ⊕
      (List Obstacle × List Obstacle × RngStream) :=
  let total := plat.length + tree.length
  if 4 ≤ total then
    let r := drawNat 2 rng
    if r.1 = 0 then Sum.inl (plat, tree, r.2)
    else if 8 ≤ total then Sum.inl (plat, tree, r.2)
    else Sum.inr (genCont i j plat tree r.2)
  else if 8 ≤ total then Sum.inl (plat, tree, rng)
  else Sum.inr (genCont i j plat tree rng)

/-- The per-tile placement `loop`, with explicit fuel since the source loop
has no syntactic bound: `none` means the loop is still running after `fuel`
iterations. -/
def genLoopF : ℕ → ℤ → ℤ → List Obstacle → List Obstacle → RngStream →
    Option (List Obstacle × List Obstacle × RngStream)
  | 0, _, _, _, _, _ => none
  | fuel + 1, i, j, plat, tree, rng =>
    match genIter i j plat tree rng with
    | Sum.inl res => some res
    | Sum.inr next => genLoopF fuel i j next.1 next.2.1 next.2.2

/-- A per-tile obstacle cache
(`GeneratedPlatformObstacles` / `GeneratedNonPlatformObstacles`). -/
abbrev Cache : Type := ℤ × ℤ → Option (List Obstacle)

/-- `HashMap::insert` at one tile key. -/
def setTile (c : Cache) (k : ℤ × ℤ) (v : List Obstacle) : Cache :=
  fun q => if q = k then some v else c q

/-- The empty cache. -/
def emptyCache : Cache := fun _ => none

/-- The tile sweep of `spawn_platforms` over a list of tile keys: a key
already present in either cache is skipped (`continue`), otherwise the tile's
lists are generated and inserted into both caches.  `none` when some tile's
placement loop outruns the fuel. -/
def ensureTiles (fuel : ℕ) : List (ℤ × ℤ) → Cache → Cache → RngStream →
    Option (Cache × Cache × RngStream)
  | [], plat, tree, rng => some (plat, tree, rng)
  | k :: ks, plat, tree, rng =>
    if (plat k).isSome then ensureTiles fuel ks plat tree rng
    else if (tree k).isSome then ensureTiles fuel ks plat tree rng
    else
      match genLoopF fuel k.1 k.2 [] [] rng with
      | none => none
      | some (ps, ts, rng2) => ensureTiles fuel ks (setTile plat k ps) (setTile tree k ts) rng2

/-- The player's current tile key:
`floor(translation / resolution)` per axis. -/
def tileKey (px py : ℚ) : ℤ × ℤ :=
  (⌊px / RESOLUTION_WIDTH⌋, ⌊py / RESOLUTION_HEIGHT⌋)

/-- The 5×5 neighborhood `current_tile - 2 ..= current_tile + 2` swept by
`spawn_platforms`, in source iteration order. -/
def neighborhood (k : ℤ × ℤ) : List (ℤ × ℤ) :=
  (List.range 5).flatMap fun a => (List.range 5).map fun b =>
    (k.1 - 2 + (a : ℤ), k.2 - 2 + (b : ℤ))

/-- One tick of the `spawn_platforms` system: generate every ungenerated tile
in the 5×5 neighborhood of the player's tile. -/
def spawnPlatformsModel (fuel : ℕ) (px py : ℚ) (plat tree : Cache)
    (rng : RngStream) : Option (Cache × Cache × RngStream) :=
  ensureTiles fuel (neighborhood (tileKey px py)) plat tree rng

/-- A platform with top at `y = 0` spanning `x ∈ [-150, 150]` (the shape of
the starting platform spawned in `setup`, raised to top 0). -/
def pLand : Obstacle := placeObstacle 0 (-10) 150 10

/-- A character falling at pre-snap `velocity.y = -2000` whose box bottom is
5 units above `pLand`'s top. -/
def dFall : DinoState :=
  { DinoState.start with y := 37, velY := -2000, aabb := Aabb.around 0 37 32 32 }

/-- The same falling character at pre-snap `velocity.y = -1600`. -/
def dFall16 : DinoState :=
  { DinoState.start with y := 37, velY := -1600, aabb := Aabb.around 0 37 32 32 }

/-- The same falling character at pre-snap `velocity.y = -1500` exactly. -/
def dFall15 : DinoState :=
  { DinoState.start with y := 37, velY := -1500, aabb := Aabb.around 0 37 32 32 }

/-- A character with `velocity.y = 0` whose box bottom sits exactly 15 units
above `pLand`'s top. -/
def dEdge : DinoState :=
  { DinoState.start with y := 47, velY := 0, aabb := Aabb.around 0 47 32 32 }

/-- A coherent character standing past 90% of the level bound on X. -/
def dFar : DinoState :=
  { DinoState.start with x := 950000, aabb := Aabb.around 950000 0 32 32 }

/-- A stand-in for `f32::sqrt` in the sample run: any fixed value works, the
trace only reads the sign region of `velocity.y`. -/
def sqrtC2 : ℚ → ℚ := fun _ => 2500

/-- The character standing on `pLand` (box bottom on the platform top). -/
def dStand : DinoState :=
  { DinoState.start with grounded := true, y := 32, aabb := Aabb.around 0 32 32 32 }

/-- A tick whose input is a fresh Space press (edge and held), frame timer
not firing. -/
def inpJump : MoveInput := ⟨7 / 100, true, true, false, false, false, 1, 1⟩

/-- A tick with no input at all and the 0.07s frame timer firing. -/
def inpCoast : MoveInput := ⟨7 / 100, false, false, false, false, true, 1, 1⟩

/-- Eleven ticks: a fresh jump, a Space re-press while airborne (the first
attack), eight coasting ticks that play out the attack animation, then
another Space re-press while still airborne (the second attack). -/
def c2Inputs : List MoveInput :=
  [inpJump, inpJump, inpCoast, inpCoast, inpCoast, inpCoast, inpCoast,
    inpCoast, inpCoast, inpCoast, inpJump]

/-- Fold one full tick, counting registered attacks and recording whether any
tick ended grounded (a landing would persist to the tick's end, since only a
jump start clears `grounded` in `arrow_move`). -/
def c2Step (acc : DinoState × ℕ × Bool) (inp : MoveInput) : DinoState × ℕ × Bool :=
  let r := fullTick sqrtC2 [pLand] [pLand] inp acc.1
  (r.1, acc.2.1 + (if r.2 then 1 else 0), acc.2.2 || r.1.grounded)

/-- The eleven-tick sample run from the standing start. -/
def c2Run : DinoState × ℕ × Bool := c2Inputs.foldl c2Step (dStand, 0, false)

/-- A platform cache holding tile `(0, 0)`. -/
def platCacheW : Cache := setTile emptyCache (0, 0) []

/-- A draw stream that makes the placement loop commit after four platforms:
place one platform, extend three times, then break at the soft cap. -/
def s17 : RngStream :=
  [0, 100, 0, 1, 0, 1, 0, 0, 0, 1, 0, 0, 0, 1, 0, 0, 0]

/-- The four platforms generated from `s17` on tile `(0, 0)`. -/
def ps4 : List Obstacle :=
  [placeObstacle 100 0 50 10, placeObstacle 50 (-10) 50 10,
    placeObstacle 50 (-10) 50 10, placeObstacle 50 (-10) 50 10]

/-- The platform cache after generating tile `(0, 0)` from `s17`. -/
def platGenW : Cache := setTile emptyCache (0, 0) ps4

/-- The tree cache after generating tile `(0, 0)` from `s17` (no trees). -/
def treeGenW : Cache := setTile emptyCache (0, 0) ([] : List Obstacle)


theorem abs_div_500 (v : ℚ) : |v / 500| = |v| / 500 := by
  rw [abs_div]; norm_num

/-- Claim C1: for every landing snap, a pre-snap vertical velocity strictly
below -1500 decreases health by exactly `20 * (floor(|v| / 500) - 2)`, and a
velocity not below -1500 (in particular exactly -1500) leaves health
unchanged; hence `v = -2000` deals 40 damage and `v = -1600` deals 20. -/
theorem c1_fall_damage (d : DinoState) (p : Obstacle) (h : landingCond d p = true) :
    (landOn d p).health =
      d.health - (if d.velY < -1500 then 20 * (⌊|d.velY| / 500⌋ - 2) else 0) := by
  unfold landOn
  by_cases hv : d.velY < -1500 <;> simp [hv, abs_div_500]

/-- Witness for C1: landings at pre-snap `velocity.y` of -2000, -1600 and
-1500 take health from 100 to 60, 80 and 100 respectively. -/
theorem c1_fall_damage_witness :
    landingCond dFall pLand = true ∧
      (landOn dFall pLand).health =
        dFall.health - (if dFall.velY < -1500 then 20 * (⌊|dFall.velY| / 500⌋ - 2) else 0) ∧
      (landOn dFall pLand).health = 60 ∧
      (landOn dFall16 pLand).health =
        dFall16.health - (if dFall16.velY < -1500 then 20 * (⌊|dFall16.velY| / 500⌋ - 2) else 0) ∧
      (landOn dFall16 pLand).health = 80 ∧
      (landOn dFall15 pLand).health =
        dFall15.health - (if dFall15.velY < -1500 then 20 * (⌊|dFall15.velY| / 500⌋ - 2) else 0) ∧
      (landOn dFall15 pLand).health = 100 :=
  ⟨by with_unfolding_all decide,
    c1_fall_damage dFall pLand (by with_unfolding_all decide),
    by with_unfolding_all decide,
    c1_fall_damage dFall16 pLand (by with_unfolding_all decide),
    by with_unfolding_all decide,
    c1_fall_damage dFall15 pLand (by with_unfolding_all decide),
    by with_unfolding_all decide⟩

/-- Claim C5: after every landing snap the character box bottom equals the
platform top exactly, the box height is unchanged, `position.y` equals the new
box center, `velocity.y` is zero and the motion state is Grounded. -/
theorem c5_landing_snap (d : DinoState) (p : Obstacle) (h : landingCond d p = true) :
    (landOn d p).aabb.minY = p.aabb.maxY ∧
      (landOn d p).aabb.maxY - (landOn d p).aabb.minY = d.aabb.maxY - d.aabb.minY ∧
      (landOn d p).y = ((landOn d p).aabb.minY + (landOn d p).aabb.maxY) / 2 ∧
      (landOn d p).velY = 0 ∧
      (landOn d p).grounded = true := by
  unfold landOn
  by_cases hv : d.velY < -1500 <;> simp [hv] <;> ring

/-- Witness for C5: the `dFall` landing on `pLand`. -/
theorem c5_landing_snap_witness :
    landingCond dFall pLand = true ∧
      (landOn dFall pLand).aabb.minY = pLand.aabb.maxY ∧
      (landOn dFall pLand).aabb.maxY - (landOn dFall pLand).aabb.minY =
        dFall.aabb.maxY - dFall.aabb.minY ∧
      (landOn dFall pLand).y =
        ((landOn dFall pLand).aabb.minY + (landOn dFall pLand).aabb.maxY) / 2 ∧
      (landOn dFall pLand).velY = 0 ∧
      (landOn dFall pLand).grounded = true :=
  ⟨by with_unfolding_all decide, c5_landing_snap dFall pLand (by with_unfolding_all decide)⟩

/-- Claim C6 counterexample: a character whose box bottom is exactly 15 units
above the platform top, not moving up and overlapping horizontally — the
claim says this lands, but `dino_gravity` skips it (the code skips at
`bottom >= top + 15`, not only at strictly more than 15). -/
theorem c6_counterexample :
    landingCond dEdge pLand = false ∧ dEdge.velY ≤ 0 ∧
      pLand.aabb.minX ≤ dEdge.aabb.maxX ∧ dEdge.aabb.minX ≤ pLand.aabb.maxX ∧
      pLand.aabb.maxY ≤ dEdge.aabb.minY ∧ dEdge.aabb.minY ≤ pLand.aabb.maxY + 15 := by
  with_unfolding_all decide

/-- Claim C6 (amended): for a platform overlapping the character horizontally
and a character not moving upward, the landing snap fires iff the box bottom
is at or above the platform top and strictly less than 15 units above it (at
exactly 15 units the landing is skipped). -/
theorem c6_landing_iff (d : DinoState) (p : Obstacle) :
    landingCond d p = true ↔ landingSpec d p := by
  unfold landingCond landingSpec
  simp only [Bool.and_eq_true, Bool.not_eq_true', Bool.or_eq_false_iff,
    decide_eq_false_iff_not, decide_eq_true_eq, not_lt, not_le]
  constructor
  · rintro ⟨⟨⟨⟨h1, h2⟩, h3⟩, h4⟩, h5⟩
    exact ⟨⟨h1, h2⟩, h3, h5, lt_of_not_le fun hc => absurd h4 (not_lt.mpr hc)⟩
  · rintro ⟨⟨h1, h2⟩, h3, h4, h5⟩
    exact ⟨⟨⟨⟨h1, h2⟩, h3⟩, lt_of_not_le fun hc => absurd h5 (not_lt.mpr hc)⟩, h4⟩

theorem coherent_same (d e : DinoState) (hx : e.x = d.x) (hy : e.y = d.y)
    (ha : e.aabb = d.aabb) (h : coherent d) : coherent e := by
  unfold coherent at h ⊢
  rw [hx, hy, ha]
  exact h

theorem landOn_coherent (d : DinoState) (p : Obstacle) (h : coherent d) :
    coherent (landOn d p) := by
  obtain ⟨hx, hy⟩ := h
  unfold landOn coherent
  by_cases hv : d.velY < -1500 <;> simp [hv] <;> exact ⟨hx, by ring⟩

theorem landLoop_coherent : ∀ (ps : List Obstacle) (d : DinoState) (b : Bool),
    coherent d → coherent (landLoop ps d b).1
  | [], _, _, h => h
  | p :: ps, d, b, h => by
    unfold landLoop
    split
    · exact landLoop_coherent ps (landOn d p) true (landOn_coherent d p h)
    · exact landLoop_coherent ps d b h

theorem gravityPhase_coherent (dt : ℚ) (d : DinoState) (h : coherent d) :
    coherent (gravityPhase dt d) := by
  unfold gravityPhase
  split
  · exact h
  · exact h

theorem integrateY_coherent (dt : ℚ) (d : DinoState) (h : coherent d) :
    coherent (integrateY dt d) := by
  obtain ⟨hx, hy⟩ := h
  unfold integrateY Aabb.shiftY coherent
  refine ⟨hx, ?_⟩
  simp only []
  linarith

theorem jumpStartPhase_frame (inp : MoveInput) (d : DinoState) :
    (jumpStartPhase inp d).x = d.x ∧ (jumpStartPhase inp d).y = d.y ∧
      (jumpStartPhase inp d).aabb = d.aabb := by
  unfold jumpStartPhase
  split <;> exact ⟨rfl, rfl, rfl⟩

theorem jumpThrustPhase_frame (sq : ℚ → ℚ) (inp : MoveInput) (d : DinoState) :
    (jumpThrustPhase sq inp d).x = d.x ∧ (jumpThrustPhase sq inp d).y = d.y ∧
      (jumpThrustPhase sq inp d).aabb = d.aabb := by
  unfold jumpThrustPhase
  split <;> exact ⟨rfl, rfl, rfl⟩

theorem horizPhase_coherent (inp : MoveInput) (d : DinoState) (h : coherent d) :
    coherent (horizPhase inp d) := by
  obtain ⟨hx, hy⟩ := h
  unfold horizPhase Aabb.shiftX coherent
  simp only []
  exact ⟨by linarith, hy⟩

theorem airborneBranch_frame (xCol : Bool) (inp : MoveInput) (d : DinoState) :
    (airborneBranch xCol inp d).1.x = d.x ∧ (airborneBranch xCol inp d).1.y = d.y ∧
      (airborneBranch xCol inp d).1.aabb = d.aabb := by
  unfold airborneBranch attackAnimAdvance
  dsimp only
  repeat' split
  all_goals exact ⟨rfl, rfl, rfl⟩

theorem walkingBranch_frame (inp : MoveInput) (d : DinoState) :
    (walkingBranch inp d).x = d.x ∧ (walkingBranch inp d).y = d.y ∧
      (walkingBranch inp d).aabb = d.aabb := by
  unfold walkingBranch
  dsimp only
  repeat' split
  all_goals exact ⟨rfl, rfl, rfl⟩

theorem idleBranch_frame (inp : MoveInput) (d : DinoState) :
    (idleBranch inp d).x = d.x ∧ (idleBranch inp d).y = d.y ∧
      (idleBranch inp d).aabb = d.aabb := by
  unfold idleBranch
  dsimp only
  repeat' split
  all_goals exact ⟨rfl, rfl, rfl⟩

theorem wrapEval : (applyWrapToDino theLevel dFar 0 0).1 = { dFar with x := -900000 } := by
  simp only [applyWrapToDino, wrapStep, theLevel, dFar, DinoState.start]
  norm_num

/-- Claim C3 counterexample: a coherent character standing past 90% of the
level bound; the wraparound teleport of `camera_tracking_system` rewrites the
translation but not the `Dino` AABB, so coherence is broken by that step. -/
theorem c3_counterexample :
    coherent dFar ∧ ¬ coherent (applyWrapToDino theLevel dFar 0 0).1 := by
  rw [wrapEval]
  constructor
  · simp only [coherent, dFar, DinoState.start, Aabb.around]
    norm_num
  · simp only [coherent, dFar, DinoState.start, Aabb.around]
    norm_num

/-- Claim C3 (amended): vertical integration, the landing snap and horizontal
integration each preserve AABB-position coherence (`dino_gravity` as a whole
and `arrow_move` as a whole preserve it); the camera wraparound teleport does
not, since it mutates the translation without a matching AABB mutation. -/
theorem c3_integration_coherent :
    (∀ (dt : ℚ) (ps : List Obstacle) (d : DinoState), coherent d →
        coherent (dinoGravityStep dt ps d)) ∧
      (∀ (sq : ℚ → ℚ) (obs : List Obstacle) (inp : MoveInput) (d : DinoState),
        coherent d → coherent (arrowMoveStep sq obs inp d).1) := by
  constructor
  · intro dt ps d h
    unfold dinoGravityStep
    dsimp only
    have h3 := landLoop_coherent ps (integrateY dt (gravityPhase dt d)) false
      (integrateY_coherent dt _ (gravityPhase_coherent dt d h))
    split
    · exact h3
    · exact h3
  · intro sq obs inp d h
    have h1 := coherent_same _ _ (jumpStartPhase_frame inp d).1
      (jumpStartPhase_frame inp d).2.1 (jumpStartPhase_frame inp d).2.2 h
    have h2 := coherent_same _ _ (jumpThrustPhase_frame sq inp _).1
      (jumpThrustPhase_frame sq inp _).2.1 (jumpThrustPhase_frame sq inp _).2.2 h1
    have h3 := horizPhase_coherent inp _ h2
    unfold arrowMoveStep
    dsimp only
    split
    · exact coherent_same _ _ (airborneBranch_frame _ inp _).1
        (airborneBranch_frame _ inp _).2.1 (airborneBranch_frame _ inp _).2.2 h3
    · split
      · exact coherent_same _ _ (walkingBranch_frame inp _).1
          (walkingBranch_frame inp _).2.1 (walkingBranch_frame inp _).2.2 h3
      · exact coherent_same _ _ (idleBranch_frame inp _).1
          (idleBranch_frame inp _).2.1 (idleBranch_frame inp _).2.2 h3

/-- Witness for the amended C3: one gravity tick and one movement tick from
the coherent standing start keep coherence. -/
theorem c3_integration_coherent_witness :
    coherent (dinoGravityStep (7 / 100) [pLand] dStand) ∧
      coherent (arrowMoveStep sqrtC2 [pLand] inpCoast dStand).1 :=
  ⟨c3_integration_coherent.1 (7 / 100) [pLand] dStand (by with_unfolding_all decide),
    c3_integration_coherent.2 sqrtC2 [pLand] inpCoast dStand (by with_unfolding_all decide)⟩

theorem jumpThrustPhase_flags (sq : ℚ → ℚ) (inp : MoveInput) (d : DinoState) :
    (jumpThrustPhase sq inp d).grounded = d.grounded ∧
      (jumpThrustPhase sq inp d).attacking = d.attacking ∧
      (jumpThrustPhase sq inp d).can_attack = d.can_attack := by
  unfold jumpThrustPhase
  dsimp only
  split <;> exact ⟨rfl, rfl, rfl⟩

theorem horizPhase_flags (inp : MoveInput) (d : DinoState) :
    (horizPhase inp d).grounded = d.grounded ∧ (horizPhase inp d).attacking = d.attacking ∧
      (horizPhase inp d).can_attack = d.can_attack :=
  ⟨rfl, rfl, rfl⟩

theorem jumpStartPhase_clears (inp : MoveInput) (d : DinoState)
    (h : (inp.spaceJustPressed && d.grounded) = true) :
    (jumpStartPhase inp d).can_attack = false ∧ (jumpStartPhase inp d).attacking = false := by
  unfold jumpStartPhase
  rw [if_pos h]
  exact ⟨rfl, rfl⟩

theorem jumpStartPhase_skip (inp : MoveInput) (d : DinoState)
    (h : ¬ (inp.spaceJustPressed && d.grounded) = true) :
    jumpStartPhase inp d = d := by
  unfold jumpStartPhase
  rw [if_neg h]

theorem jumpStartPhase_grounded_false (inp : MoveInput) (d : DinoState)
    (h : d.grounded = false) : (jumpStartPhase inp d).grounded = false := by
  unfold jumpStartPhase
  split
  · rfl
  · exact h

theorem airborneBranch_reg (xCol : Bool) (inp : MoveInput) (d : DinoState) :
    (airborneBranch xCol inp d).2 =
      (inp.spaceJustPressed && !d.attacking && d.can_attack) := by
  unfold airborneBranch
  dsimp only
  repeat' split
  all_goals simp_all

theorem airborneBranch_can (xCol : Bool) (inp : MoveInput) (d : DinoState) :
    (airborneBranch xCol inp d).1.can_attack = true := by
  unfold airborneBranch attackAnimAdvance
  dsimp only
  repeat' split
  all_goals rfl

/-- Claim C2 counterexample: from the standing start, tick 1 is a fresh jump
(Space edge while grounded), tick 2 registers a first attack, eight coasting
frame-timer ticks complete the attack animation mid-air, and tick 11
registers a second attack — two attacks in one continuous air-time (no tick
ends grounded), because `can_attack` is never cleared by attacking. -/
theorem c2_counterexample :
    dStand.grounded = true ∧ c2Run.2.1 = 2 ∧ c2Run.2.2 = false := by
  with_unfolding_all decide

/-- Claim C2 (amended): no attack can be registered on a grounded tick (in
particular on the jump-start tick, which clears `can_attack` before the
attack check), and none while an attack is already in progress; but
`can_attack` is re-set to true at the end of every airborne tick and is
cleared only by the next jump start, so once an attack animation completes
mid-air a further attack can be registered in the same air-time. -/
theorem c2_attack_gating :
    (∀ (sq : ℚ → ℚ) (obs : List Obstacle) (inp : MoveInput) (d : DinoState),
        d.grounded = true → (arrowMoveStep sq obs inp d).2 = false) ∧
      (∀ (sq : ℚ → ℚ) (obs : List Obstacle) (inp : MoveInput) (d : DinoState),
        d.attacking = true → (arrowMoveStep sq obs inp d).2 = false) ∧
      (∀ (sq : ℚ → ℚ) (obs : List Obstacle) (inp : MoveInput) (d : DinoState),
        d.grounded = false → (arrowMoveStep sq obs inp d).1.can_attack = true) := by
  refine ⟨?_, ?_, ?_⟩
  · intro sq obs inp d h
    unfold arrowMoveStep
    dsimp only
    split
    · rw [airborneBranch_reg]
      by_cases hjp : inp.spaceJustPressed = true
      · have hcond : (inp.spaceJustPressed && d.grounded) = true := by rw [hjp, h]; rfl
        have hca : (horizPhase inp (jumpThrustPhase sq inp (jumpStartPhase inp d))).can_attack
            = false := by
          rw [(horizPhase_flags inp _).2.2, (jumpThrustPhase_flags sq inp _).2.2]
          exact (jumpStartPhase_clears inp d hcond).1
        simp [hca]
      · simp [Bool.not_eq_true] at hjp
        simp [hjp]
    · split
      · rfl
      · rfl
  · intro sq obs inp d h
    unfold arrowMoveStep
    dsimp only
    split
    · rw [airborneBranch_reg]
      by_cases hjs : (inp.spaceJustPressed && d.grounded) = true
      · have hca : (horizPhase inp (jumpThrustPhase sq inp (jumpStartPhase inp d))).can_attack
            = false := by
          rw [(horizPhase_flags inp _).2.2, (jumpThrustPhase_flags sq inp _).2.2]
          exact (jumpStartPhase_clears inp d hjs).1
        simp [hca]
      · have hat : (horizPhase inp (jumpThrustPhase sq inp (jumpStartPhase inp d))).attacking
            = true := by
          rw [(horizPhase_flags inp _).2.1, (jumpThrustPhase_flags sq inp _).2.1,
            jumpStartPhase_skip inp d hjs]
          exact h
        simp [hat]
    · split
      · rfl
      · rfl
  · intro sq obs inp d h
    unfold arrowMoveStep
    dsimp only
    have hg3 : (horizPhase inp (jumpThrustPhase sq inp (jumpStartPhase inp d))).grounded
        = false := by
      rw [(horizPhase_flags inp _).1, (jumpThrustPhase_flags sq inp _).1]
      exact jumpStartPhase_grounded_false inp d h
    have hcond : ((horizPhase inp (jumpThrustPhase sq inp (jumpStartPhase inp d))).jumping
        || !(horizPhase inp (jumpThrustPhase sq inp (jumpStartPhase inp d))).grounded) = true := by
      rw [hg3]
      simp
    rw [if_pos hcond]
    exact airborneBranch_can _ inp _

/-- Witness for the amended C2: the three gating facts at concrete states. -/
theorem c2_attack_gating_witness :
    (arrowMoveStep sqrtC2 [pLand] inpJump dStand).2 = false ∧
      (arrowMoveStep sqrtC2 [pLand] inpCoast { dStand with attacking := true }).2 = false ∧
      (arrowMoveStep sqrtC2 [pLand] inpCoast DinoState.start).1.can_attack = true :=
  ⟨c2_attack_gating.1 sqrtC2 [pLand] inpJump dStand rfl,
    c2_attack_gating.2.1 sqrtC2 [pLand] inpCoast { dStand with attacking := true } rfl,
    c2_attack_gating.2.2 sqrtC2 [pLand] inpCoast DinoState.start rfl⟩

/-- Claim C7 counterexample: with the timer exhausted and the target height
reached in the same tick, `update_timeboard` first writes `Lose`, then
`update_heightboard` overwrites it with `Win` — the first writer does not
win and a subsequent write does change the status (there is no InProgress
guard on any of the writes). -/
theorem c7_counterexample :
    update_timeboard_status true GameStatus.InProgress = GameStatus.Lose ∧
      update_heightboard_status 9822 10000
        (update_timeboard_status true GameStatus.InProgress) = GameStatus.Win ∧
      GameStatus.Win ≠ GameStatus.Lose := by
  with_unfolding_all decide

/-- Claim C7 (amended): every end-condition write is unconditional, so within
one tick the status ends as the value written by the last system whose
condition fired (`update_heightboard`'s `Win` overrides `update_healthboard`'s
and `update_timeboard`'s `Lose`); the status is unchanged only when no
condition fires.  Writes stop after the tick only because the systems cease
to run once the game state leaves `Running`, not because of any write-once
guard on the status itself. -/
theorem c7_last_writer (timerFinished : Bool) (health : ℤ) (target dinoY : ℚ)
    (s : GameStatus) :
    statusTick timerFinished health target dinoY s =
      if target - dinoY ≤ 0 then GameStatus.Win
      else if health ≤ 0 then GameStatus.Lose
      else if timerFinished then GameStatus.Lose
      else s := by
  unfold statusTick update_timeboard_status update_healthboard_status update_heightboard_status
  by_cases h1 : target - dinoY ≤ 0 <;> by_cases h2 : health ≤ 0 <;>
    cases timerFinished <;> simp [h1, h2]

/-- Claim C9: on each axis independently, when the camera is within the 0.10
dead zone of its target (the character position, plus the 75-unit offset on Y
only) and the target is strictly inside the level bounds on that axis, the
tracking step sets the camera exactly to the target, bypassing the spring. -/
theorem c9_dead_zone :
    (∀ b dt camY py lo hi : ℚ, |camY - (py + camera_above_center_const)| < 1 / 10 →
        lo < py + camera_above_center_const → py + camera_above_center_const < hi →
        cameraTickY b dt camY py lo hi = py + camera_above_center_const) ∧
      (∀ b dt camX px lo hi : ℚ, |camX - px| < 1 / 10 → lo < px → px < hi →
        cameraTickX b dt camX px lo hi = px) := by
  constructor
  · intro b dt camY py lo hi h1 h2 h3
    unfold cameraTickY cameraAxisTrack
    dsimp only
    rw [if_pos h1, if_pos ⟨h3, h2⟩]
  · intro b dt camX px lo hi h1 h2 h3
    unfold cameraTickX cameraAxisTrack
    dsimp only
    rw [if_pos h1, if_pos ⟨h3, h2⟩]

/-- Witness for C9: a camera 0.05 away from its target snaps to it on both
axes inside the ±1,000,000 bounds. -/
theorem c9_dead_zone_witness :
    cameraTickY 3 (1 / 60) (75 + 1 / 20) 0 (-1000000) 1000000 =
        0 + camera_above_center_const ∧
      cameraTickX 3 (1 / 60) (1 / 20) 0 (-1000000) 1000000 = 0 :=
  ⟨c9_dead_zone.1 3 (1 / 60) (75 + 1 / 20) 0 (-1000000) 1000000
      (by with_unfolding_all decide) (by with_unfolding_all decide)
      (by with_unfolding_all decide),
    c9_dead_zone.2 3 (1 / 60) (1 / 20) 0 (-1000000) 1000000
      (by with_unfolding_all decide) (by with_unfolding_all decide)
      (by with_unfolding_all decide)⟩

theorem ensureTiles_keeps :
    ∀ (fuel : ℕ) (ks : List (ℤ × ℤ)) (plat tree : Cache) (rng : RngStream)
      (res : Cache × Cache × RngStream) (k : ℤ × ℤ),
      ((plat k).isSome = true ∨ (tree k).isSome = true) →
      ensureTiles fuel ks plat tree rng = some res →
      res.1 k = plat k ∧ res.2.1 k = tree k
  | fuel, [], plat, tree, rng, res, k, _, h => by
    unfold ensureTiles at h
    injection h with h2
    subst h2
    exact ⟨rfl, rfl⟩
  | fuel, k2 :: ks, plat, tree, rng, res, k, hk, h => by
    unfold ensureTiles at h
    by_cases h1 : (plat k2).isSome = true
    · rw [if_pos h1] at h
      exact ensureTiles_keeps fuel ks plat tree rng res k hk h
    · rw [if_neg h1] at h
      by_cases h2 : (tree k2).isSome = true
      · rw [if_pos h2] at h
        exact ensureTiles_keeps fuel ks plat tree rng res k hk h
      · rw [if_neg h2] at h
        cases hg : genLoopF fuel k2.1 k2.2 [] [] rng with
        | none =>
          rw [hg] at h
          exact nomatch h
        | some v =>
          obtain ⟨ps2, ts2, rng2⟩ := v
          rw [hg] at h
          dsimp only at h
          have hne : k ≠ k2 := by
            intro he
            subst he
            rcases hk with hk | hk
            · exact h1 hk
            · exact h2 hk
          have hplat : setTile plat k2 ps2 k = plat k := by
            unfold setTile
            rw [if_neg hne]
          have htree : setTile tree k2 ts2 k = tree k := by
            unfold setTile
            rw [if_neg hne]
          have hk2 : ((setTile plat k2 ps2 k).isSome = true ∨
              (setTile tree k2 ts2 k).isSome = true) := by
            rw [hplat, htree]
            exact hk
          have hrec := ensureTiles_keeps fuel ks (setTile plat k2 ps2)
            (setTile tree k2 ts2) rng2 res k hk2 h
          exact ⟨hrec.1.trans hplat, hrec.2.trans htree⟩

theorem genCont_len2 (i j : ℤ) (plat tree : List Obstacle) (rng : RngStream) :
    (genCont i j plat tree rng).1.length + (genCont i j plat tree rng).2.1.length ≤
      plat.length + tree.length + 2 := by
  unfold genCont
  dsimp only
  repeat' split
  all_goals simp_all [List.length_append]
  all_goals omega

theorem genCont_len1 (i j : ℤ) (plat tree : List Obstacle) (rng : RngStream)
    (hne : ¬ plat.length + tree.length = 0) :
    (genCont i j plat tree rng).1.length + (genCont i j plat tree rng).2.1.length ≤
      plat.length + tree.length + 1 := by
  unfold genCont
  rw [if_neg hne]
  dsimp only
  repeat' split
  all_goals simp_all [List.length_append]
  all_goals omega

theorem genIter_inl (i j : ℤ) (plat tree : List Obstacle) (rng : RngStream)
    (res : List Obstacle × List Obstacle × RngStream)
    (h : genIter i j plat tree rng = Sum.inl res) :
    res.1 = plat ∧ res.2.1 = tree ∧ 4 ≤ plat.length + tree.length := by
  unfold genIter at h
  dsimp only at h
  by_cases h4 : 4 ≤ plat.length + tree.length
  · rw [if_pos h4] at h
    split at h
    · injection h with h2
      subst h2
      exact ⟨rfl, rfl, h4⟩
    · split at h
      · injection h with h2
        subst h2
        exact ⟨rfl, rfl, h4⟩
      · exact nomatch h
  · rw [if_neg h4] at h
    rw [if_neg (by omega : ¬ 8 ≤ plat.length + tree.length)] at h
    exact nomatch h

theorem genIter_inr_le8 (i j : ℤ) (plat tree : List Obstacle) (rng : RngStream)
    (next : List Obstacle × List Obstacle × RngStream)
    (h : genIter i j plat tree rng = Sum.inr next)
    (hle : plat.length + tree.length ≤ 8) :
    next.1.length + next.2.1.length ≤ 8 := by
  unfold genIter at h
  dsimp only at h
  by_cases h4 : 4 ≤ plat.length + tree.length
  · rw [if_pos h4] at h
    split at h
    · exact nomatch h
    · split at h
      · exact nomatch h
      · injection h with h2
        subst h2
        have := genCont_len1 i j plat tree (drawNat 2 rng).2 (by omega)
        omega
  · rw [if_neg h4] at h
    rw [if_neg (by omega : ¬ 8 ≤ plat.length + tree.length)] at h
    injection h with h2
    subst h2
    have ha := genCont_len2 i j plat tree rng
    by_cases h0 : plat.length + tree.length = 0
    · omega
    · have := genCont_len1 i j plat tree rng h0
      omega

theorem genLoopF_ge4 : ∀ (fuel : ℕ) (i j : ℤ) (plat tree : List Obstacle)
    (rng : RngStream) (res : List Obstacle × List Obstacle × RngStream),
    genLoopF fuel i j plat tree rng = some res → 4 ≤ res.1.length + res.2.1.length
  | 0, _, _, _, _, _, _, h => nomatch h
  | fuel + 1, i, j, plat, tree, rng, res, h => by
    unfold genLoopF at h
    cases hg : genIter i j plat tree rng with
    | inl r =>
      rw [hg] at h
      dsimp only at h
      injection h with h2
      subst h2
      obtain ⟨e1, e2, e3⟩ := genIter_inl i j plat tree rng _ hg
      rw [e1, e2]
      exact e3
    | inr nxt =>
      rw [hg] at h
      dsimp only at h
      exact genLoopF_ge4 fuel i j nxt.1 nxt.2.1 nxt.2.2 res h

theorem genLoopF_le8 : ∀ (fuel : ℕ) (i j : ℤ) (plat tree : List Obstacle)
    (rng : RngStream) (res : List Obstacle × List Obstacle × RngStream),
    genLoopF fuel i j plat tree rng = some res → plat.length + tree.length ≤ 8 →
    res.1.length + res.2.1.length ≤ 8
  | 0, _, _, _, _, _, _, h, _ => nomatch h
  | fuel + 1, i, j, plat, tree, rng, res, h, hle => by
    unfold genLoopF at h
    cases hg : genIter i j plat tree rng with
    | inl r =>
      rw [hg] at h
      dsimp only at h
      injection h with h2
      subst h2
      obtain ⟨e1, e2, _⟩ := genIter_inl i j plat tree rng _ hg
      rw [e1, e2]
      exact hle
    | inr nxt =>
      rw [hg] at h
      dsimp only at h
      exact genLoopF_le8 fuel i j nxt.1 nxt.2.1 nxt.2.2 res h
        (genIter_inr_le8 i j plat tree rng nxt hg hle)

/-- Claim C4: a tile key already present in the obstacle caches is skipped by
the generator sweep — no insertion happens for it and its cached platform and
tree lists are exactly preserved (never regenerated or removed) by any later
run over any tile list. -/
theorem c4_idempotent (fuel : ℕ) (ks : List (ℤ × ℤ)) (plat tree : Cache)
    (rng : RngStream) (res : Cache × Cache × RngStream) (k : ℤ × ℤ)
    (hk : (plat k).isSome = true ∨ (tree k).isSome = true)
    (h : ensureTiles fuel ks plat tree rng = some res) :
    res.1 k = plat k ∧ res.2.1 k = tree k :=
  ensureTiles_keeps fuel ks plat tree rng res k hk h

/-- Witness for C4: re-running the sweep over an already-generated tile
`(0, 0)` leaves both caches untouched. -/
theorem c4_idempotent_witness :
    ((platCacheW, emptyCache, ([] : RngStream)) : Cache × Cache × RngStream).1 (0, 0)
        = platCacheW (0, 0) ∧
      ((platCacheW, emptyCache, ([] : RngStream)) : Cache × Cache × RngStream).2.1 (0, 0)
        = emptyCache (0, 0) :=
  c4_idempotent 1 [(0, 0)] platCacheW emptyCache [] (platCacheW, emptyCache, []) (0, 0)
    (Or.inl rfl) (by with_unfolding_all rfl)

theorem extendFirst_nilStream (hx hy a b c e : ℚ) :
    ∀ ps : List Obstacle, extendFirst hx hy a b c e ps [] = (none, ([] : RngStream))
  | [] => rfl
  | _ :: ps => extendFirst_nilStream hx hy a b c e ps

theorem genLoopF_stuck_one (ob : Obstacle) : ∀ n : ℕ, genLoopF n 0 0 [ob] [] [] = none
  | 0 => rfl
  | n + 1 => by
    have hs : genLoopF (n + 1) 0 0 [ob] [] [] = genLoopF n 0 0 [ob] [] [] := rfl
    rw [hs]
    exact genLoopF_stuck_one ob n

theorem genIter_empty_all_zero :
    genIter 0 0 [] [] [] = Sum.inr ([placeObstacle 100 (-220) 50 10], [], []) := by
  with_unfolding_all decide

theorem genLoopF_empty_stuck : ∀ n : ℕ, genLoopF n 0 0 [] [] [] = none
  | 0 => rfl
  | n + 1 => by
    unfold genLoopF
    rw [genIter_empty_all_zero]
    dsimp only
    exact genLoopF_stuck_one _ n

/-- Claim C8 counterexample: on tile `(0, 0)` with the random stream whose
draws are all lowest values (modelled by the exhausted stream), the placement
loop places one platform and then skips every extension attempt forever — the
loop never commits for any number of iterations, so generation does not
terminate for every state of the random source. -/
theorem c8_counterexample :
    ¬ ∃ (n : ℕ) (res : List Obstacle × List Obstacle × RngStream),
        genLoopF n 0 0 [] [] [] = some res := by
  rintro ⟨n, res, h⟩
  rw [genLoopF_empty_stuck n] at h
  exact nomatch h

/-- Claim C8 (amended): generation never fails with an error and the
committed obstacle count is bounded by the hard cap of 8; however the loop's
iteration count is unbounded — it terminates with probability 1 but not for
every draw sequence (the all-lowest-draws sequence loops forever). -/
theorem c8_hard_cap (fuel : ℕ) (i j : ℤ) (rng : RngStream)
    (res : List Obstacle × List Obstacle × RngStream)
    (h : genLoopF fuel i j [] [] rng = some res) :
    res.1.length + res.2.1.length ≤ 8 :=
  genLoopF_le8 fuel i j [] [] rng res h (by simp)

/-- Witness for the amended C8: the `s17` run commits four obstacles. -/
theorem c8_hard_cap_witness :
    ((ps4, [], ([] : RngStream)) : List Obstacle × List Obstacle × RngStream).1.length +
      ((ps4, [], ([] : RngStream)) : List Obstacle × List Obstacle × RngStream).2.1.length ≤ 8 :=
  c8_hard_cap 5 0 0 s17 (ps4, [], []) (by with_unfolding_all decide)

/-- Claim C10: every obstacle-list pair newly committed to the per-tile
caches holds at least 4 and at most 8 obstacles in total — the placement
loop exits only through its two break conditions, both of which require the
combined count to have reached 4, and the count never exceeds the hard cap
of 8. -/
theorem c10_committed_counts :
    ∀ (fuel : ℕ) (ks : List (ℤ × ℤ)) (plat tree : Cache) (rng : RngStream)
      (res : Cache × Cache × RngStream) (k : ℤ × ℤ) (ps ts : List Obstacle),
      ensureTiles fuel ks plat tree rng = some res →
      plat k = none → tree k = none →
      res.1 k = some ps → res.2.1 k = some ts →
      4 ≤ ps.length + ts.length ∧ ps.length + ts.length ≤ 8
  | fuel, [], plat, tree, rng, res, k, ps, ts => by
    intro h hp0 ht0 hp ht
    unfold ensureTiles at h
    injection h with h2
    subst h2
    dsimp only at hp
    rw [hp0] at hp
    exact nomatch hp
  | fuel, k2 :: ks, plat, tree, rng, res, k, ps, ts => by
    intro h hp0 ht0 hp ht
    unfold ensureTiles at h
    by_cases h1 : (plat k2).isSome = true
    · rw [if_pos h1] at h
      exact c10_committed_counts fuel ks plat tree rng res k ps ts h hp0 ht0 hp ht
    · rw [if_neg h1] at h
      by_cases h2 : (tree k2).isSome = true
      · rw [if_pos h2] at h
        exact c10_committed_counts fuel ks plat tree rng res k ps ts h hp0 ht0 hp ht
      · rw [if_neg h2] at h
        cases hg : genLoopF fuel k2.1 k2.2 [] [] rng with
        | none =>
          rw [hg] at h
          exact nomatch h
        | some v =>
          obtain ⟨ps2, ts2, rng2⟩ := v
          rw [hg] at h
          dsimp only at h
          by_cases hkk : k = k2
          · subst hkk
            have hkeep := ensureTiles_keeps fuel ks (setTile plat k ps2)
              (setTile tree k ts2) rng2 res k
              (Or.inl (by unfold setTile; simp)) h
            have e1 : res.1 k = some ps2 := by
              rw [hkeep.1]
              unfold setTile
              simp
            have e2 : res.2.1 k = some ts2 := by
              rw [hkeep.2]
              unfold setTile
              simp
            rw [e1] at hp
            rw [e2] at ht
            injection hp with hp2
            injection ht with ht2
            rw [← hp2, ← ht2]
            have hge := genLoopF_ge4 fuel k.1 k.2 [] [] rng (ps2, ts2, rng2) hg
            have hle := genLoopF_le8 fuel k.1 k.2 [] [] rng (ps2, ts2, rng2) hg (by simp)
            exact ⟨hge, hle⟩
          · have hp0b : setTile plat k2 ps2 k = none := by
              unfold setTile
              rw [if_neg hkk]
              exact hp0
            have ht0b : setTile tree k2 ts2 k = none := by
              unfold setTile
              rw [if_neg hkk]
              exact ht0
            exact c10_committed_counts fuel ks (setTile plat k2 ps2)
              (setTile tree k2 ts2) rng2 res k ps ts h hp0b ht0b hp ht

/-- Witness for C10: the `s17` generation of tile `(0, 0)` commits exactly
four platforms and no trees. -/
theorem c10_committed_counts_witness :
    4 ≤ ps4.length + ([] : List Obstacle).length ∧
      ps4.length + ([] : List Obstacle).length ≤ 8 :=
  c10_committed_counts 5 [(0, 0)] emptyCache emptyCache s17 (platGenW, treeGenW, [])
    (0, 0) ps4 [] (by with_unfolding_all rfl) rfl rfl
    (by with_unfolding_all rfl) (by with_unfolding_all rfl)
